import Mathlib

/-!
Shallow embedding of the retrieval-augmented naming-guide application
(Streamlit variant `app.py` and Azure-Function variant `function_app.py`).

External services (chat completion, embedding, hybrid search) are modelled as
oracles: functions from the request the code builds to `Except String r`,
where `Except.error` stands for the call raising an exception.  Machine
floats appear only as opaque payloads, so embedding vectors are modelled as
`List Int` and relevance scores as a number of hundredths (`Nat`), rendered
with exactly two decimals like Python's `f-string` `:.2f` formatting.
-/

/-- Substring relation on strings: `strContains s t` holds when `t` occurs
contiguously inside `s` (Python's `t in s`). -/
def strContains (s t : String) : Prop := t.data <:+: s.data

instance (s t : String) : Decidable (strContains s t) := by
  unfold strContains; infer_instance

/-- Boolean form of `strContains`, used where the source uses `in` inside a
boolean expression. -/
def strContainsB (s t : String) : Bool := decide (strContains s t)

/-- Split a character list at every occurrence of the separator, keeping
empty pieces, the semantics of Python's `str.split(sep)` with a one-character
separator. -/
def splitOnChar (sep : Char) : List Char → List (List Char)
  | [] => [[]]
  | c :: rest =>
    let r := splitOnChar sep rest
    if c = sep then [] :: r
    else
      match r with
      | [] => [[c]]
      | h :: t => (c :: h) :: t

/-- Model of Python `str.split(sep)` for a one-character separator. -/
def pySplit (sep : Char) (s : String) : List String :=
  (splitOnChar sep s.data).map String.mk

/-- Model of Python `str.strip()`: drop leading and trailing whitespace. -/
def pyStrip (s : String) : String :=
  String.mk (((s.data.dropWhile Char.isWhitespace).reverse.dropWhile Char.isWhitespace).reverse)

/-- Model of Python `str.lower()`. -/
def pyLower (s : String) : String := String.mk (s.data.map Char.toLower)

/-- Model of Python `str.upper()`. -/
def pyUpper (s : String) : String := String.mk (s.data.map Char.toUpper)

/-- Last two decimal digits of a score given in hundredths. -/
def fracPart (n : Nat) : String := String.mk [Nat.digitChar (n % 100 / 10), Nat.digitChar (n % 10)]

/-- Two-decimal rendering of a relevance score held as hundredths, the model
of Python's `f"\x7bscore:.2f\x7d"`. -/
def fmt2 (n : Nat) : String := toString (n / 100) ++ "." ++ fracPart n

/-- Zero-pad a line number to four digits, the model of `f"\x7bi+1:04d\x7d"`. -/
def pad4 (n : Nat) : String :=
  let s := toString n
  if s.length < 4 then String.mk (List.replicate (4 - s.length) '0') ++ s else s

/-- Model of Python `str.splitlines` for newline-separated text: split on
`"\n"` and drop the trailing empty piece produced by a final newline. -/
def pySplitlines (s : String) : List String :=
  let parts := pySplit '\n' s
  match parts.getLast? with
  | some "" => parts.dropLast
  | _ => parts

/-- Join a context list with newlines, or substitute the given placeholder
when the list is empty (the `"\n".join(ctx) if ctx else msg` idiom of the
result-record construction). -/
def ctxJoin (l : List String) (emptyMsg : String) : String :=
  if l.isEmpty then emptyMsg else String.intercalate "\n" l

/-- One chat-completion request: system message, user message, and the
temperature in tenths (0.0 → 0, 0.3 → 3, 0.1 → 1). -/
structure ChatReq where
  system : String
  user : String
  temperature : Nat
deriving DecidableEq

/-- One vector query of a hybrid search call (`VectorizedQuery`). -/
structure VectorizedQuery where
  vector : List Int
  k_nearest_neighbors : Nat
  fields : String
  exhaustive : Bool
deriving DecidableEq

/-- Query mode of the search call (`QueryType.FULL` in the source). -/
inductive QueryType where
  | full
  | simple
deriving DecidableEq

/-- The full request one searcher issues to the external search service. -/
structure SearchReq where
  search_text : String
  vector_queries : List VectorizedQuery
  select : List String
  top : Nat
  query_type : QueryType
deriving DecidableEq

/-- One hit from the Rules collection.  Fields are optional because the
service may omit projected fields; `score` is `@search.score` in hundredths. -/
structure RuleHit where
  category : Option String
  type_ : Option String
  rule_en : Option String
  rule_kr : Option String
  example_ : Option (List String)
  score : Option Nat
deriving DecidableEq

/-- One hit from the Dictionary collection. -/
structure DictHit where
  korean : Option String
  english : Option String
  abbreviation : Option String
  description : Option String
  score : Option Nat
deriving DecidableEq

/-- One hit from the Q&A collection. -/
structure QAHit where
  category : Option String
  question : Option String
  answer : Option String
  score : Option Nat
deriving DecidableEq

/-- Issue a search request to a service oracle and format the hits; a raised
exception (`Except.error`) is caught and yields the empty list, as every
searcher's `try/except` does. -/
def svcFmt {α : Type} (svc : SearchReq → Except String (List α)) (req : SearchReq)
    (fmt : α → String) : List String :=
  match svc req with
  | .error _ => []
  | .ok results => results.map fmt

/-- Split an LLM keyword reply exactly as both variants do: strip the reply,
split on commas, strip each piece, drop empty pieces. -/
def splitKeywords (reply : String) : List String :=
  ((pySplit ',' (pyStrip reply)).map pyStrip).filter (fun k => k ≠ "")

/-- Field projection of the Rules searches (both variants). -/
def rulesSelect : List String := ["category", "type", "rule_en", "rule_kr", "example"]

/-- Field projection of the Dictionary search (`app.py`). -/
def dictSelect : List String := ["korean", "english", "abbreviation", "description"]

/-- Field projection of the Q&A searches (both variants). -/
def qaSelect : List String := ["category", "question", "answer"]

/-- Shared system prompt of the final answer generation, split around the
interpolated context (`generate_response_with_llm`, identical in both
files). -/
def genPromptPre : String :=
  "\n    당신은 코딩 명명 규칙을 준수하는 전문가입니다. 사용자의 요청에 따라 새로운 변수명이나 함수명을 생성하고,\n    명명 규칙 또는 용어에 대한 질문에 답변해야 합니다.\n    \n    **반드시 지켜야 할 사항:**\n    1. 아래 \x27검색된 규칙\x27, \x27용어사전\x27, \x27Q&A\x27를 참고하여 답변을 생성합니다.\n    2. 새로운 명명을 생성할 경우, 해당되는 규칙(예: camelCase, PascalCase, 동사 시작 등)을 간결하게 설명합니다.\n    3. 용어사전에서 찾은 영문 대안이나 약어를 활용하여 생성된 용어의 명확성을 높입니다.\n    4. Q&A 컨텍스트에서 직접적인 답변을 찾았다면, 해당 내용을 중심으로 답변의 정확도를 높입니다.\n\n    **검색된 규칙 및 용어 (Context):**\n    ---\n"

def genPromptPost : String := "\n    ---\n    "

/-- Final answer generation (`generate_response_with_llm`, identical in both
variants): join the context with newlines into the system prompt, issue one
completion at temperature 0.3, and on a raised call return the fixed
Korean error string embedding the reason instead of propagating. -/
def generate_response_with_llm (chat : ChatReq → Except String String)
    (user_request : String) (context_list : List String) : String :=
  let context_str := String.intercalate "\n" context_list
  match chat { system := genPromptPre ++ context_str ++ genPromptPost,
               user := user_request, temperature := 3 } with
  | .ok t => t
  | .error e => "요청 처리 중 오류가 발생했습니다. (오류: " ++ e ++ ")"

namespace App

/-- External world of one Streamlit-app request: each field is one external
call site, `Except.error` modelling a raised exception at that call. -/
structure Env where
  chatKw : ChatReq → Except String String
  embed : String → Except String (List Int)
  svcRules : SearchReq → Except String (List RuleHit)
  svcDict : SearchReq → Except String (List DictHit)
  svcQA : SearchReq → Except String (List QAHit)
  chatGen : ChatReq → Except String String

/-- Embedding call (`generate_embedding`): on a raised call return the empty
vector, never propagate. -/
def generate_embedding (embed : String → Except String (List Int)) (text : String) : List Int :=
  match embed text with
  | .ok v => v
  | .error _ => []

/-- Vector-query construction shared by the three searchers: an empty
embedding disables the vector channel, otherwise one k-NN query against the
collection's `vector_embedding` field. -/
def build_vector_queries (query_vector : List Int) (k : Nat) : List VectorizedQuery :=
  if query_vector.isEmpty then []
  else [{ vector := query_vector, k_nearest_neighbors := k,
          fields := "vector_embedding", exhaustive := false }]

/-- Keyword-extraction prompt of `app.py`. -/
def kwPrompt (user_request : String) : String :=
  "\n        다음 사용자 요청에서 명명 규칙 및 용어 검색에 필요한 핵심 키워드(Key Term)와 카테고리(Java, Database, UI, Python)를\n        최대 5개까지 쉼표로 구분하여 추출하세요. 요청: "
    ++ user_request ++ " ->\n        "

/-- The completion request the `app.py` keyword extractor issues. -/
def kwRequest (user_request : String) : ChatReq :=
  { system := "You are a helpful assistant for keyword extraction.",
    user := kwPrompt user_request, temperature := 0 }

/-- Keyword extraction (`extract_keywords_with_llm` in `app.py`): one
completion at temperature 0.0; on success split the reply into trimmed
non-empty comma tokens and join them with " OR "; on a raised call fall back
to the full request as sole keyword and as the lexical query. -/
def extract_keywords_with_llm (chat : ChatReq → Except String String)
    (user_request : String) : List String × String :=
  match chat (kwRequest user_request) with
  | .ok content =>
    let keywords_list := splitKeywords content
    (keywords_list, String.intercalate " OR " keywords_list)
  | .error _ => ([user_request], user_request)

/-- Snippet formatting of one Dictionary hit (`app.py`), `.get(field, "N/A")`
modelled by `Option.getD`. -/
def format_dictionary_hit (h : DictHit) : String :=
  "[Context: 용어사전(Score:" ++ fmt2 (h.score.getD 0) ++ ")]" ++ " "
    ++ "**한국어**: " ++ h.korean.getD "N/A" ++ " " ++ "**영문**: " ++ h.english.getD "N/A"
    ++ " " ++ "**약어**: " ++ h.abbreviation.getD "N/A" ++ " "
    ++ "**설명**: " ++ h.description.getD "N/A"

/-- Snippet formatting of one Rules hit (`app.py`): a missing or empty
example list renders as "예시 없음", the other rendered fields default to
"N/A"; the projected `rule_en` is not rendered. -/
def format_rules_hit (h : RuleHit) : String :=
  let examples := h.example_.getD []
  let example_str := if examples.isEmpty then "예시 없음" else String.intercalate ", " examples
  "[Context: " ++ h.category.getD "N/A" ++ " " ++ h.type_.getD "N/A" ++ " Rule (Score:"
    ++ fmt2 (h.score.getD 0) ++ ")]" ++ " " ++ "**규칙**: " ++ h.rule_kr.getD "N/A"
    ++ " " ++ "**예시**: " ++ example_str

/-- Snippet formatting of one Q&A hit (`app.py`). -/
def format_qa_hit (h : QAHit) : String :=
  "[Context: QA-" ++ h.category.getD "N/A" ++ " (Score:" ++ fmt2 (h.score.getD 0)
    ++ ")]" ++ " " ++ "**질문**: " ++ h.question.getD "N/A" ++ " "
    ++ "**답변**: " ++ h.answer.getD "N/A"

/-- Search request issued by the `app.py` Rules searcher. -/
def rules_search_request (search_query : String) (vq : List VectorizedQuery) : SearchReq :=
  { search_text := search_query, vector_queries := vq, select := rulesSelect,
    top := 5, query_type := QueryType.full }

/-- Search request issued by the `app.py` Dictionary searcher. -/
def dict_search_request (search_query : String) (vq : List VectorizedQuery) : SearchReq :=
  { search_text := search_query, vector_queries := vq, select := dictSelect,
    top := 5, query_type := QueryType.full }

/-- Search request issued by the `app.py` Q&A searcher. -/
def qa_search_request (search_query : String) (vq : List VectorizedQuery) : SearchReq :=
  { search_text := search_query, vector_queries := vq, select := qaSelect,
    top := 3, query_type := QueryType.full }

/-- Rules searcher of `app.py`: embed the request (degrading to lexical-only
on failure), issue one hybrid search with top 5 and 5 neighbors, format each
hit; any raised search call yields the empty list. -/
def search_rules_for_context (env : Env) (user_request search_query : String) : List String :=
  let query_vector := generate_embedding env.embed user_request
  svcFmt env.svcRules (rules_search_request search_query (build_vector_queries query_vector 5))
    format_rules_hit

/-- Dictionary searcher of `app.py` (hybrid search, top 5, 5 neighbors). -/
def search_dictionary_for_terms (env : Env) (user_request search_query : String) : List String :=
  let query_vector := generate_embedding env.embed user_request
  svcFmt env.svcDict (dict_search_request search_query (build_vector_queries query_vector 5))
    format_dictionary_hit

/-- Q&A searcher of `app.py` (hybrid search, top 3, 3 neighbors). -/
def search_qa_for_context (env : Env) (user_request search_query : String) : List String :=
  let query_vector := generate_embedding env.embed user_request
  svcFmt env.svcQA (qa_search_request search_query (build_vector_queries query_vector 3))
    format_qa_hit

/-- File-extension tag: upper-cased last dot component, "UNKNOWN" when the
name has no dot. -/
def fileExt (file_name : String) : String :=
  if '.' ∈ file_name.data then pyUpper ((pySplit '.' file_name).getLast?.getD "")
  else "UNKNOWN"

/-- Synthetic analysis-intent string built from the uploaded file's name and
extension, the retrieval query source of file-analysis mode. -/
def analysis_request_text (file_name : String) : String :=
  "규칙 분석 요청: " ++ file_name ++ " 파일 (" ++ fileExt file_name ++ ")의 명명, 용어, 관행"

/-- Code-analysis system prompt (`analyze_code_with_llm`), with the file
name, type, fused context and numbered code interpolated. -/
def analyzePrompt (file_name file_type context_str numbered_content : String) : String :=
  "\n    당신은 코딩 명명 규칙을 준수하는 전문가입니다. 사용자가 업로드한 \x27" ++ file_name
    ++ "\x27 파일의 \x27" ++ file_type
    ++ "\x27 코드 내용을 분석하여,\n    **반드시** 아래 \x27검색된 규칙 및 용어\x27를 참고하여 명명 규칙을 위반한 모든 명칭(변수명, 함수명, 클래스명, DB 객체명 등)을 찾으세요.\n\n    **응답 형식:**\n    1. 파일명과 분석 요약 (분석된 명칭 총 개수, 위반 명칭 개수 등)을 먼저 작성하세요.\n    2. 발견된 모든 위반 사항을 **코드 라인 번호**와 함께 표(Markdown Table)로 정리해서 보여주세요.\n    3. 표 컬럼: 위반 명칭 | 라인 번호 | 위반 규칙 유형 | 발견된 문제 | 제안 수정안\n    4. 분석이 불가능하거나 명칭이 너무 적다면, 왜 분석이 제한되는지 설명하세요.\n\n    **검색된 규칙 및 용어 (Context):**\n    ---\n"
    ++ context_str ++ "\n    ---\n\n    **분석할 코드 내용 (라인 번호 포함):**\n    ---\n"
    ++ numbered_content ++ "\n    ---\n    "

/-- Code analysis (`analyze_code_with_llm`): line-number the code, embed the
fused context into the analysis prompt, issue one completion at temperature
0.1, and on a raised call return the fixed Korean error string instead of
propagating. -/
def analyze_code_with_llm (chat : ChatReq → Except String String)
    (file_name code_content : String) (context_list : List String) : String :=
  let file_type := fileExt file_name
  let context_str := String.intercalate "\n" context_list
  let numbered_content := String.intercalate "\n"
    ((pySplitlines code_content).mapIdx (fun i line => pad4 (i + 1) ++ ": " ++ line))
  match chat { system := analyzePrompt file_name file_type context_str numbered_content,
               user := "\x27" ++ file_name ++ "\x27 파일에 대한 명명 규칙 위반 분석을 수행해 주세요.",
               temperature := 1 } with
  | .ok t => t
  | .error e => "코드 분석 중 오류가 발생했습니다. (오류: " ++ e ++ ")"

/-- Uploaded file: name plus the outcome of `file.read().decode("utf-8")`,
whose failure is the one unguarded (orchestrator-level) operation of the
file-analysis branch. -/
structure UploadedFile where
  name : String
  content : Except String String

/-- One history entry (`result_data`): question label, answer, the metadata
fields, and the three per-collection joined context strings. -/
structure ResultRecord where
  question : String
  answer : String
  analysisType : String
  searchQuery : String
  keywords : List String
  fileSizeBytes : Option Nat
  contextCount : Nat
  rulesCtx : String
  dictCtx : String
  qaCtx : String
deriving DecidableEq

/-- Fixed no-context answer of the text-question mode. -/
def no_context_message : String := "죄송합니다. 관련된 명명 규칙이나 용어를 찾을 수 없습니다."

/-- Lexical query the text-question pipeline derives for a request. -/
def text_query (env : Env) (user_input : String) : String :=
  (extract_keywords_with_llm env.chatKw user_input).2

/-- One full run of the Streamlit request pipeline (section 6 of `app.py`):
file present → file-analysis mode driven by the synthetic analysis string,
else text-question mode driven by the user text; `Except.error` is the
orchestrator-level failure path (text shown, nothing appended to history). -/
def appRun (env : Env) (user_input : String) (file : Option UploadedFile) :
    Except String ResultRecord :=
  match file with
  | some f =>
    match f.content with
    | .error e => .error e
    | .ok code_content =>
      let file_ext := fileExt f.name
      let analysis_text := analysis_request_text f.name
      let search_query := (extract_keywords_with_llm env.chatKw analysis_text).2
      let rules_context := search_rules_for_context env analysis_text search_query
      let dictionary_context := search_dictionary_for_terms env analysis_text search_query
      let qa_context := search_qa_for_context env analysis_text search_query
      let all_context := rules_context ++ dictionary_context ++ qa_context
      let final_answer := analyze_code_with_llm env.chatGen f.name code_content all_context
      .ok { question := "[파일 분석] " ++ f.name ++ " (" ++ file_ext ++ ")",
            answer := final_answer,
            analysisType := "코드 명명 규칙 분석 (3개 인덱스 활용)",
            searchQuery := search_query,
            keywords := [],
            fileSizeBytes := some code_content.utf8ByteSize,
            contextCount := all_context.length,
            rulesCtx := ctxJoin rules_context "규칙 Context 검색 결과 없음",
            dictCtx := ctxJoin dictionary_context "용어사전 Context 검색 결과 없음",
            qaCtx := ctxJoin qa_context "Q&A Context 검색 결과 없음" }
  | none =>
      let extracted := extract_keywords_with_llm env.chatKw user_input
      let keywords_list := extracted.1
      let search_query := extracted.2
      let rules_context := search_rules_for_context env user_input search_query
      let dictionary_context := search_dictionary_for_terms env user_input search_query
      let qa_context := search_qa_for_context env user_input search_query
      let all_context := rules_context ++ dictionary_context ++ qa_context
      let final_answer :=
        if all_context.isEmpty then no_context_message
        else generate_response_with_llm env.chatGen user_input all_context
      .ok { question := user_input,
            answer := final_answer,
            analysisType := "일반 질의 응답",
            searchQuery := search_query,
            keywords := keywords_list,
            fileSizeBytes := none,
            contextCount := all_context.length,
            rulesCtx := ctxJoin rules_context "Context 없음",
            dictCtx := ctxJoin dictionary_context "Context 없음",
            qaCtx := ctxJoin qa_context "Context 없음" }

/-- One user request together with its external world. -/
structure Request where
  env : Env
  text : String
  file : Option UploadedFile

/-- History update of one request: a completed run appends its record, an
orchestrator-level failure leaves the history untouched. -/
def histStep (h : List ResultRecord) (r : Request) : List ResultRecord :=
  match appRun r.env r.text r.file with
  | .ok rec => h ++ [rec]
  | .error _ => h

/-- Process the given requests in submission order against a starting
history. -/
def runHistory (h : List ResultRecord) (rs : List Request) : List ResultRecord :=
  rs.foldl histStep h

end App

namespace Func

/-- One entry of the locally loaded term dictionary of `function_app.py`,
keyed elsewhere by its Korean form; `.get(field, "N/A")` lookups are
modelled by optional fields. -/
structure DictEntry where
  english : Option String
  abbreviation : Option String
  description : Option String
deriving DecidableEq

/-- The sample dictionary `SAMPLE_DICTIONARY_ARRAY` used when no
`dictionary.json` file is present, as (korean, entry) pairs in file order. -/
def SAMPLE_DICTIONARY_ARRAY : List (String × DictEntry) :=
  [("상품", { english := some "Product", abbreviation := some "PROD",
              description := some "소비자에게 판매하는 모든 종류의 물품." }),
   ("재고", { english := some "Stock/Inventory", abbreviation := some "INV",
              description := some "현재 판매 또는 배송 가능한 상태로 창고에 보관 중인 상품 수량." }),
   ("품절", { english := some "Sold Out", abbreviation := some "OOS",
              description := some "재고가 모두 소진되어 일시적 또는 영구적으로 구매할 수 없는 상태. (Out Of Stock)" }),
   ("할인", { english := some "Discount", abbreviation := some "DC",
              description := some "정가에서 일정 비율이나 금액을 빼주는 판매 방식." }),
   ("정가", { english := some "Regular Price", abbreviation := some "RP",
              description := some "할인이나 프로모션이 적용되지 않은 본래의 판매 가격." })]

/-- Match test of the dictionary scan: some keyword is, case-insensitively,
a substring of the Korean term or vice versa. -/
def dict_match (keywords : List String) (term_kr : String) : Bool :=
  keywords.any fun keyword =>
    strContainsB (pyLower term_kr) (pyLower keyword) || strContainsB (pyLower keyword) (pyLower term_kr)

/-- Snippet formatting of one matched dictionary term (`function_app.py`);
the snippet carries no relevance score. -/
def format_dict_entry (term_kr : String) (d : DictEntry) : String :=
  "[Context: 용어사전] " ++ "**한국어**: " ++ term_kr ++ " " ++ "**영문**: " ++ d.english.getD "N/A"
    ++ " " ++ "**약어**: " ++ d.abbreviation.getD "N/A" ++ " "
    ++ "**설명**: " ++ d.description.getD "N/A"

/-- One iteration of the dictionary scan: append the snippet of a matched
term unless an identical snippet is already present. -/
def dictStep (keywords : List String) (acc : List String) (p : String × DictEntry) :
    List String :=
  if dict_match keywords p.1 then
    let context := format_dict_entry p.1 p.2
    if context ∈ acc then acc else acc ++ [context]
  else acc

/-- Dictionary searcher of `function_app.py`: a pure scan of the locally
loaded dictionary, no search-service call, in dictionary iteration order,
suppressing duplicate snippet strings. -/
def search_dictionary_for_terms (dictionary : List (String × DictEntry))
    (keywords : List String) : List String :=
  dictionary.foldl (dictStep keywords) []

/-- Keyword-extraction prompt of `function_app.py`. -/
def kwPrompt (user_request : String) : String :=
  "\n        다음 사용자 요청에서 명명 규칙 및 용어 검색에 필요한 핵심 키워드(Key Term)와 카테고리(Java, Database, WebUI)를\n        최대 5개까지 쉼표로 구분하여 추출하세요.\n\n        요청: "
    ++ user_request ++ " ->\n        "

/-- The completion request the `function_app.py` keyword extractor issues. -/
def kwRequest (user_request : String) : ChatReq :=
  { system := "You are a helpful assistant for keyword extraction.",
    user := kwPrompt user_request, temperature := 0 }

/-- Keyword extraction of `function_app.py`: identical degradation contract
to the Streamlit variant. -/
def extract_keywords_with_llm (chat : ChatReq → Except String String)
    (user_request : String) : List String × String :=
  match chat (kwRequest user_request) with
  | .ok content =>
    let keywords_list := splitKeywords content
    (keywords_list, String.intercalate " OR " keywords_list)
  | .error _ => ([user_request], user_request)

/-- Search request issued by the `function_app.py` Rules searcher: lexical
only (no vector queries), top 3, full query mode. -/
def rules_search_request (search_query : String) : SearchReq :=
  { search_text := search_query, vector_queries := [], select := rulesSelect,
    top := 3, query_type := QueryType.full }

/-- Search request issued by the `function_app.py` Q&A searcher: lexical
only, top 2, full query mode. -/
def qa_search_request (search_query : String) : SearchReq :=
  { search_text := search_query, vector_queries := [], select := qaSelect,
    top := 2, query_type := QueryType.full }

/-- Snippet formatting of one Rules hit in `function_app.py`: plain indexing
with no default, so a hit missing any used field raises (modelled as
`none`), which the enclosing handler turns into an empty result list. -/
def format_rules_hit (h : RuleHit) : Option String := do
  let category ← h.category
  let type_ ← h.type_
  let rule_kr ← h.rule_kr
  let example_ ← h.example_
  pure ("[Context: " ++ category ++ " " ++ type_ ++ " Rule] **규칙**: " ++ rule_kr
    ++ " **예시**: " ++ String.intercalate ", " example_)

/-- Snippet formatting of one Q&A hit in `function_app.py` (plain indexing,
no defaults). -/
def format_qa_hit (h : QAHit) : Option String := do
  let category ← h.category
  let question ← h.question
  let answer ← h.answer
  pure ("[Context: QA-" ++ category ++ "] **질문**: " ++ question ++ " **답변**: " ++ answer)

/-- Rules searcher of `function_app.py`: lexical search with top 3; a raised
call or a hit missing a used field yields the empty list. -/
def search_rules_for_context (svc : SearchReq → Except String (List RuleHit))
    (search_query : String) : List String :=
  match svc (rules_search_request search_query) with
  | .error _ => []
  | .ok results =>
    match results.mapM format_rules_hit with
    | some l => l
    | none => []

/-- Q&A searcher of `function_app.py`: lexical search with top 2, same
failure contract as the Rules searcher. -/
def search_qa_for_context (svc : SearchReq → Except String (List QAHit))
    (search_query : String) : List String :=
  match svc (qa_search_request search_query) with
  | .error _ => []
  | .ok results =>
    match results.mapM format_qa_hit with
    | some l => l
    | none => []

/-- External world of one HTTP-function request. -/
structure FEnv where
  chatKw : ChatReq → Except String String
  svcRules : SearchReq → Except String (List RuleHit)
  svcQA : SearchReq → Except String (List QAHit)
  chatGen : ChatReq → Except String String
  dictionary : List (String × DictEntry)

/-- JSON values appearing in the response body. -/
inductive JVal where
  | str (s : String)
  | num (n : Nat)
deriving DecidableEq

/-- JSON string escaping (quotes, backslashes, newlines; other characters
pass through as `ensure_ascii=False` keeps them verbatim). -/
def jsonEscape (s : String) : String :=
  String.mk (s.data.foldr
    (fun c acc =>
      match c with
      | '\"' => '\\' :: '\"' :: acc
      | '\\' => '\\' :: '\\' :: acc
      | '\n' => '\\' :: 'n' :: acc
      | c => c :: acc) [])

def jvalDump : JVal → String
  | .str s => "\"" ++ jsonEscape s ++ "\""
  | .num n => toString n

/-- Model of `json.dumps` on a string-keyed object with default
separators. -/
def jsonDump (l : List (String × JVal)) : String :=
  "\x7b" ++ String.intercalate ", "
    (l.map (fun p => "\"" ++ jsonEscape p.1 ++ "\": " ++ jvalDump p.2)) ++ "\x7d"

/-- HTTP response: body text, status code, optional mimetype. -/
structure HttpResponse where
  body : String
  status : Nat
  mimetype : Option String
deriving DecidableEq

/-- Error message of the missing/empty `request_text` validation. -/
def missingFieldMsg : String := "요청 본문에 \x27request_text\x27 필드가 필요합니다."

/-- The HTTP entry point `main`: invalid JSON or a missing/empty
`request_text` yields status 400 with the error text; otherwise the full
pipeline runs (every component degrading internally) and a 200 JSON response
with exactly the keys final_answer, search_query_used and
retrieved_context_count is returned.  `getJson` is the outcome of
`req.get_json()` (`Except.error` for an unparsable or non-object body). -/
def main (env : FEnv) (getJson : Except String (List (String × String))) : HttpResponse :=
  match getJson with
  | .error e => { body := e, status := 400, mimetype := none }
  | .ok req_body =>
    match req_body.lookup "request_text" with
    | none => { body := missingFieldMsg, status := 400, mimetype := none }
    | some user_request =>
      if user_request = "" then { body := missingFieldMsg, status := 400, mimetype := none }
      else
        let extracted := extract_keywords_with_llm env.chatKw user_request
        let keywords_list := extracted.1
        let search_query := extracted.2
        let rules_context := search_rules_for_context env.svcRules search_query
        let dictionary_context := search_dictionary_for_terms env.dictionary keywords_list
        let qa_context := search_qa_for_context env.svcQA search_query
        let all_context := rules_context ++ dictionary_context ++ qa_context
        let final_answer := generate_response_with_llm env.chatGen user_request all_context
        { body := jsonDump
            [("final_answer", JVal.str final_answer),
             ("search_query_used", JVal.str search_query),
             ("retrieved_context_count", JVal.num all_context.length)],
          status := 200,
          mimetype := some "application/json" }

end Func

/-! Concrete sample data for witnesses: hits with all fields populated and
environments whose oracles either answer with them or fail. -/

def ruleHitA : RuleHit :=
  { category := some "Java", type_ := some "변수", rule_en := some "use camelCase",
    rule_kr := some "캐멀케이스를 사용", example_ := some ["userName", "itemCount"],
    score := some 253 }

def dictHitA : DictHit :=
  { korean := some "재고", english := some "Stock/Inventory", abbreviation := some "INV",
    description := some "창고에 보관 중인 상품 수량", score := some 101 }

def qaHitA : QAHit :=
  { category := some "Java", question := some "배열 변수명 규칙은?",
    answer := some "복수형 camelCase를 사용합니다", score := some 97 }

def envRich : App.Env :=
  { chatKw := fun _ => .ok "Java, 변수, 재고",
    embed := fun _ => .ok [1, 2, 3],
    svcRules := fun _ => .ok [ruleHitA],
    svcDict := fun _ => .ok [dictHitA],
    svcQA := fun _ => .ok [qaHitA],
    chatGen := fun _ => .ok "GEN" }

def envEmptyResults : App.Env :=
  { chatKw := fun _ => .error "down",
    embed := fun _ => .error "down",
    svcRules := fun _ => .ok [],
    svcDict := fun _ => .ok [],
    svcQA := fun _ => .ok [],
    chatGen := fun _ => .ok "GEN" }

def fenvRich : Func.FEnv :=
  { chatKw := fun _ => .ok "Java, 변수, 재고",
    svcRules := fun _ => .ok [ruleHitA],
    svcQA := fun _ => .ok [qaHitA],
    chatGen := fun _ => .ok "GEN",
    dictionary := Func.SAMPLE_DICTIONARY_ARRAY }

def fenvEmptyResults : Func.FEnv :=
  { chatKw := fun _ => .error "down",
    svcRules := fun _ => .ok [],
    svcQA := fun _ => .ok [],
    chatGen := fun _ => .ok "GEN",
    dictionary := [] }

def fileA : App.UploadedFile :=
  { name := "Sample.java", content := .ok "int user_list = 5;" }

def fileUndecodable : App.UploadedFile :=
  { name := "Bad.bin", content := .error "UnicodeDecodeError" }

def envAnalyzerOnly : App.Env :=
  { chatKw := fun _ => .error "down",
    embed := fun _ => .error "down",
    svcRules := fun _ => .ok [],
    svcDict := fun _ => .ok [],
    svcQA := fun _ => .ok [],
    chatGen := fun _ => .ok "MODEL-OUTPUT" }

def ruleHitNoExample : RuleHit :=
  { category := some "Java", type_ := some "변수", rule_en := some "RULEEN",
    rule_kr := some "캐멀케이스를 사용", example_ := none, score := some 100 }

def ruleHitNoCategory : RuleHit :=
  { category := none, type_ := some "변수", rule_en := none,
    rule_kr := some "규칙", example_ := some ["userName"], score := none }

def qaHitNoQuestion : QAHit :=
  { category := some "Java", question := none, answer := some "답변", score := none }

def reqA : App.Request := { env := envRich, text := "질문", file := none }

def reqBad : App.Request := { env := envRich, text := "", file := some fileUndecodable }

def blankRecord : App.ResultRecord :=
  { question := "", answer := "", analysisType := "", searchQuery := "", keywords := [],
    fileSizeBytes := none, contextCount := 0, rulesCtx := "", dictCtx := "", qaCtx := "" }

/-- Record a request's run produced, defaulting on the failure path; used
only to witness the history theorem at concrete requests. -/
def recOfRun (r : App.Request) : App.ResultRecord :=
  (App.appRun r.env r.text r.file).toOption.getD blankRecord

/-! ## Helper lemmas -/

theorem strContains_of_parts (s pre t post : String)
    (h : s.data = pre.data ++ (t.data ++ post.data)) : strContains s t :=
  ⟨pre.data, post.data, by rw [h]; simp⟩

theorem runHistory_ok_append (rs : List App.Request) (f : App.Request → App.ResultRecord) :
    ∀ h : List App.ResultRecord,
      (∀ r ∈ rs, App.appRun r.env r.text r.file = .ok (f r)) →
        App.runHistory h rs = h ++ rs.map f := by
  induction rs with
  | nil => intro h _; simp [App.runHistory]
  | cons r rs ih =>
    intro h hall
    have hr : App.appRun r.env r.text r.file = .ok (f r) := hall r (by simp)
    have hstep : App.histStep h r = h ++ [f r] := by simp [App.histStep, hr]
    calc App.runHistory h (r :: rs)
        = App.runHistory (App.histStep h r) rs := rfl
      _ = App.histStep h r ++ rs.map f := ih _ (fun x hx => hall x (by simp [hx]))
      _ = h ++ (f r :: rs.map f) := by rw [hstep]; simp

/-! ## Claims -/

/-- C1. Context fusion is pure concatenation in fixed order: in the
text-question pipeline, the file-analysis pipeline and the HTTP function's
`main`, whenever the three searchers return R, D and Q, every downstream
consumer (the context count recorded in the result and the context list
handed to generation/analysis) receives exactly `R ++ D ++ Q` — no
interleaving, reordering, deduplication or re-scoring. -/
theorem claim1_fusion_pure_concatenation :
    (∀ (env : App.Env) (u : String) (R D Q : List String),
      R = App.search_rules_for_context env u (App.text_query env u) →
      D = App.search_dictionary_for_terms env u (App.text_query env u) →
      Q = App.search_qa_for_context env u (App.text_query env u) →
        (App.appRun env u none).map (fun r => r.contextCount) = .ok (R ++ D ++ Q).length
        ∧ (App.appRun env u none).map (fun r => r.answer) =
            .ok (if (R ++ D ++ Q).isEmpty then App.no_context_message
                 else generate_response_with_llm env.chatGen u (R ++ D ++ Q)))
    ∧ (∀ (env : App.Env) (u code : String) (f : App.UploadedFile) (R D Q : List String),
        f.content = .ok code →
        R = App.search_rules_for_context env (App.analysis_request_text f.name)
              (App.text_query env (App.analysis_request_text f.name)) →
        D = App.search_dictionary_for_terms env (App.analysis_request_text f.name)
              (App.text_query env (App.analysis_request_text f.name)) →
        Q = App.search_qa_for_context env (App.analysis_request_text f.name)
              (App.text_query env (App.analysis_request_text f.name)) →
          (App.appRun env u (some f)).map (fun r => r.contextCount) = .ok (R ++ D ++ Q).length
          ∧ (App.appRun env u (some f)).map (fun r => r.answer) =
              .ok (App.analyze_code_with_llm env.chatGen f.name code (R ++ D ++ Q)))
    ∧ (∀ (fenv : Func.FEnv) (body : List (String × String)) (t : String) (R D Q : List String),
        body.lookup "request_text" = some t → t ≠ "" →
        R = Func.search_rules_for_context fenv.svcRules
              (Func.extract_keywords_with_llm fenv.chatKw t).2 →
        D = Func.search_dictionary_for_terms fenv.dictionary
              (Func.extract_keywords_with_llm fenv.chatKw t).1 →
        Q = Func.search_qa_for_context fenv.svcQA
              (Func.extract_keywords_with_llm fenv.chatKw t).2 →
          Func.main fenv (.ok body) =
            { body := Func.jsonDump
                [("final_answer",
                  Func.JVal.str (generate_response_with_llm fenv.chatGen t (R ++ D ++ Q))),
                 ("search_query_used",
                  Func.JVal.str (Func.extract_keywords_with_llm fenv.chatKw t).2),
                 ("retrieved_context_count", Func.JVal.num (R ++ D ++ Q).length)],
              status := 200, mimetype := some "application/json" }) := by
  refine ⟨?_, ?_, ?_⟩
  · intro env u R D Q hR hD hQ
    subst hR hD hQ
    constructor <;> simp [App.appRun, App.text_query, Except.map]
  · intro env u code f R D Q hc hR hD hQ
    subst hR hD hQ
    constructor <;> simp [App.appRun, App.text_query, hc, Except.map]
  · intro fenv body t R D Q hl ht hR hD hQ
    subst hR hD hQ
    simp [Func.main, hl, ht]

/-- Witness for C1 at concrete environments and inputs. -/
theorem claim1_witness :
    ((App.appRun envRich "질문" none).map (fun r => r.contextCount) = .ok
        ((App.search_rules_for_context envRich "질문" (App.text_query envRich "질문")
          ++ App.search_dictionary_for_terms envRich "질문" (App.text_query envRich "질문")
          ++ App.search_qa_for_context envRich "질문" (App.text_query envRich "질문")).length))
    ∧ Func.main fenvRich (.ok [("request_text", "질문")]) =
        { body := Func.jsonDump
            [("final_answer",
              Func.JVal.str (generate_response_with_llm fenvRich.chatGen "질문"
                (Func.search_rules_for_context fenvRich.svcRules
                    (Func.extract_keywords_with_llm fenvRich.chatKw "질문").2
                  ++ Func.search_dictionary_for_terms fenvRich.dictionary
                      (Func.extract_keywords_with_llm fenvRich.chatKw "질문").1
                  ++ Func.search_qa_for_context fenvRich.svcQA
                      (Func.extract_keywords_with_llm fenvRich.chatKw "질문").2))),
             ("search_query_used",
              Func.JVal.str (Func.extract_keywords_with_llm fenvRich.chatKw "질문").2),
             ("retrieved_context_count",
              Func.JVal.num (Func.search_rules_for_context fenvRich.svcRules
                    (Func.extract_keywords_with_llm fenvRich.chatKw "질문").2
                  ++ Func.search_dictionary_for_terms fenvRich.dictionary
                      (Func.extract_keywords_with_llm fenvRich.chatKw "질문").1
                  ++ Func.search_qa_for_context fenvRich.svcQA
                      (Func.extract_keywords_with_llm fenvRich.chatKw "질문").2).length)],
          status := 200, mimetype := some "application/json" } :=
  ⟨(claim1_fusion_pure_concatenation.1 envRich "질문" _ _ _ rfl rfl rfl).1,
   claim1_fusion_pure_concatenation.2.2 fenvRich [("request_text", "질문")] "질문" _ _ _
     rfl (by decide) rfl rfl rfl⟩

/-- C3. Keyword-extraction fallback, in both variants: if the completion
call raises, extraction returns the one-element keyword list holding the full
request and the request itself as the lexical query; otherwise it returns the
trimmed non-empty comma tokens of the reply, joined with " OR " as the
lexical query.  The embedded function is total, so extraction never
raises. -/
theorem claim3_keyword_extraction_fallback :
    ∀ (chat : ChatReq → Except String String) (X : String),
      (match chat (App.kwRequest X) with
       | .error _ => App.extract_keywords_with_llm chat X = ([X], X)
       | .ok reply =>
           App.extract_keywords_with_llm chat X =
             (splitKeywords reply, String.intercalate " OR " (splitKeywords reply))
           ∧ ∀ t ∈ splitKeywords reply, t ≠ "")
      ∧ (match chat (Func.kwRequest X) with
         | .error _ => Func.extract_keywords_with_llm chat X = ([X], X)
         | .ok reply =>
             Func.extract_keywords_with_llm chat X =
               (splitKeywords reply, String.intercalate " OR " (splitKeywords reply))
             ∧ ∀ t ∈ splitKeywords reply, t ≠ "") := by
  intro chat X
  constructor
  · cases h : chat (App.kwRequest X) with
    | error e => simp [App.extract_keywords_with_llm, h]
    | ok reply =>
      refine ⟨by simp [App.extract_keywords_with_llm, h], ?_⟩
      intro t ht
      simpa using (List.mem_filter.1 ht).2
  · cases h : chat (Func.kwRequest X) with
    | error e => simp [Func.extract_keywords_with_llm, h]
    | ok reply =>
      refine ⟨by simp [Func.extract_keywords_with_llm, h], ?_⟩
      intro t ht
      simpa using (List.mem_filter.1 ht).2

/-- Witness for C3: a failing extractor call degrades to the request itself,
and a successful call splits and joins the reply. -/
theorem claim3_witness :
    App.extract_keywords_with_llm (fun _ => .error "down") "X" = (["X"], "X")
    ∧ App.extract_keywords_with_llm (fun _ => .ok " Java , 재고,, 변수 ") "X" =
        (["Java", "재고", "변수"], "Java OR 재고 OR 변수") := by
  have h1 := claim3_keyword_extraction_fallback (fun _ => .error "down") "X"
  have h2 := claim3_keyword_extraction_fallback (fun _ => .ok " Java , 재고,, 변수 ") "X"
  exact ⟨h1.1, by rw [h2.1.1]; decide⟩

/-- C4. Embedding-failure degradation: whenever the embedding step yields no
vector, each of the three `app.py` searchers still issues its search with an
empty vector-query list and returns the (possibly empty) formatted result of
that lexical-only call; a raised search call degrades to the empty list, so
no exception reaches the caller. -/
theorem claim4_embedding_failure_degradation :
    ∀ (env : App.Env) (u q : String),
      App.generate_embedding env.embed u = [] →
        App.search_rules_for_context env u q
          = svcFmt env.svcRules (App.rules_search_request q []) App.format_rules_hit
        ∧ App.search_dictionary_for_terms env u q
          = svcFmt env.svcDict (App.dict_search_request q []) App.format_dictionary_hit
        ∧ App.search_qa_for_context env u q
          = svcFmt env.svcQA (App.qa_search_request q []) App.format_qa_hit
        ∧ (∀ e, env.svcRules (App.rules_search_request q []) = .error e →
            App.search_rules_for_context env u q = []) := by
  intro env u q h
  refine ⟨?_, ?_, ?_, ?_⟩
  · simp [App.search_rules_for_context, h, App.build_vector_queries]
  · simp [App.search_dictionary_for_terms, h, App.build_vector_queries]
  · simp [App.search_qa_for_context, h, App.build_vector_queries]
  · intro e he
    simp [App.search_rules_for_context, h, App.build_vector_queries, svcFmt, he]

/-- Witness for C4 at an environment whose embedding endpoint is down and
whose Rules search raises. -/
theorem claim4_witness :
    App.search_rules_for_context
      { envEmptyResults with svcRules := fun _ => .error "boom" } "재고" "재고" = [] := by
  have h := claim4_embedding_failure_degradation
    { envEmptyResults with svcRules := fun _ => .error "boom" } "재고" "재고" rfl
  exact h.2.2.2 "boom" rfl

/-- C7 (amended). The Streamlit searchers use fixed top-K and neighbor
counts of 5 (Rules), 5 (Dictionary) and 3 (Q&A), vector queries against the
`vector_embedding` field, and full-text query mode; the HTTP function
variant instead uses top 3 for Rules and top 2 for Q&A with no vector
channel at all (still full-text mode), and its Dictionary source is a local
scan, not a search request. -/
theorem claim7_amended_fixed_retrieval_sizes :
    ∀ (q : String) (v : List Int), v ≠ [] →
      App.rules_search_request q (App.build_vector_queries v 5) =
        { search_text := q,
          vector_queries := [{ vector := v, k_nearest_neighbors := 5,
                               fields := "vector_embedding", exhaustive := false }],
          select := rulesSelect, top := 5, query_type := QueryType.full }
      ∧ App.dict_search_request q (App.build_vector_queries v 5) =
          { search_text := q,
            vector_queries := [{ vector := v, k_nearest_neighbors := 5,
                                 fields := "vector_embedding", exhaustive := false }],
            select := dictSelect, top := 5, query_type := QueryType.full }
      ∧ App.qa_search_request q (App.build_vector_queries v 3) =
          { search_text := q,
            vector_queries := [{ vector := v, k_nearest_neighbors := 3,
                                 fields := "vector_embedding", exhaustive := false }],
            select := qaSelect, top := 3, query_type := QueryType.full }
      ∧ Func.rules_search_request q =
          { search_text := q, vector_queries := [], select := rulesSelect,
            top := 3, query_type := QueryType.full }
      ∧ Func.qa_search_request q =
          { search_text := q, vector_queries := [], select := qaSelect,
            top := 2, query_type := QueryType.full } := by
  intro q v hv
  have hvempty : v.isEmpty = false := by
    cases v with
    | nil => exact absurd rfl hv
    | cons a l => rfl
  refine ⟨?_, ?_, ?_, rfl, rfl⟩ <;>
    simp [App.rules_search_request, App.dict_search_request, App.qa_search_request,
      App.build_vector_queries, hvempty]

/-- Counterexample to C7 as stated: the HTTP function's Rules search
requests top 3, not 5 (and carries no vector query at all). -/
theorem claim7_counterexample :
    (Func.rules_search_request "재고").top = 3
    ∧ ¬ ((Func.rules_search_request "재고").top = 5)
    ∧ (Func.rules_search_request "재고").vector_queries = [] := by
  refine ⟨rfl, by decide, rfl⟩

/-- Witness for C7 (amended) at a concrete query and vector. -/
theorem claim7_witness :
    App.rules_search_request "재고" (App.build_vector_queries [1, 2] 5) =
      { search_text := "재고",
        vector_queries := [{ vector := [1, 2], k_nearest_neighbors := 5,
                             fields := "vector_embedding", exhaustive := false }],
        select := rulesSelect, top := 5, query_type := QueryType.full } :=
  (claim7_amended_fixed_retrieval_sizes "재고" [1, 2] (by decide)).1

/-- C10. HTTP contract of the function variant: an unparsable body or a
missing/empty `request_text` yields status 400; any other request yields
status 200 with a JSON body holding exactly the keys `final_answer`,
`search_query_used` and `retrieved_context_count`.  The environment is
universally quantified, so component-level failures (extraction, search,
generation all degrading internally) never change the status code. -/
theorem claim10_http_interface_contract :
    ∀ (env : Func.FEnv) (e : String) (body : List (String × String)) (t : String),
      (Func.main env (.error e)).status = 400
      ∧ (body.lookup "request_text" = none → (Func.main env (.ok body)).status = 400)
      ∧ (body.lookup "request_text" = some "" → (Func.main env (.ok body)).status = 400)
      ∧ (body.lookup "request_text" = some t → t ≠ "" →
          Func.main env (.ok body) =
            { body := Func.jsonDump
                [("final_answer",
                  Func.JVal.str (generate_response_with_llm env.chatGen t
                    (Func.search_rules_for_context env.svcRules
                        (Func.extract_keywords_with_llm env.chatKw t).2
                      ++ Func.search_dictionary_for_terms env.dictionary
                          (Func.extract_keywords_with_llm env.chatKw t).1
                      ++ Func.search_qa_for_context env.svcQA
                          (Func.extract_keywords_with_llm env.chatKw t).2))),
                 ("search_query_used",
                  Func.JVal.str (Func.extract_keywords_with_llm env.chatKw t).2),
                 ("retrieved_context_count",
                  Func.JVal.num (Func.search_rules_for_context env.svcRules
                        (Func.extract_keywords_with_llm env.chatKw t).2
                      ++ Func.search_dictionary_for_terms env.dictionary
                          (Func.extract_keywords_with_llm env.chatKw t).1
                      ++ Func.search_qa_for_context env.svcQA
                          (Func.extract_keywords_with_llm env.chatKw t).2).length)],
              status := 200, mimetype := some "application/json" }) := by
  intro env e body t
  refine ⟨rfl, ?_, ?_, ?_⟩
  · intro h; simp [Func.main, h]
  · intro h; simp [Func.main, h]
  · intro h ht; simp [Func.main, h, ht]

/-- Witness for C10: one 400 on a missing field and one 200 on a well-formed
request, both against an environment whose components all fail or return
nothing. -/
theorem claim10_witness :
    (Func.main fenvEmptyResults (.ok [("other", "x")])).status = 400
    ∧ Func.main fenvEmptyResults (.ok [("request_text", "재고")]) =
        { body := Func.jsonDump
            [("final_answer",
              Func.JVal.str (generate_response_with_llm fenvEmptyResults.chatGen "재고"
                (Func.search_rules_for_context fenvEmptyResults.svcRules
                    (Func.extract_keywords_with_llm fenvEmptyResults.chatKw "재고").2
                  ++ Func.search_dictionary_for_terms fenvEmptyResults.dictionary
                      (Func.extract_keywords_with_llm fenvEmptyResults.chatKw "재고").1
                  ++ Func.search_qa_for_context fenvEmptyResults.svcQA
                      (Func.extract_keywords_with_llm fenvEmptyResults.chatKw "재고").2))),
             ("search_query_used",
              Func.JVal.str (Func.extract_keywords_with_llm fenvEmptyResults.chatKw "재고").2),
             ("retrieved_context_count",
              Func.JVal.num (Func.search_rules_for_context fenvEmptyResults.svcRules
                    (Func.extract_keywords_with_llm fenvEmptyResults.chatKw "재고").2
                  ++ Func.search_dictionary_for_terms fenvEmptyResults.dictionary
                      (Func.extract_keywords_with_llm fenvEmptyResults.chatKw "재고").1
                  ++ Func.search_qa_for_context fenvEmptyResults.svcQA
                      (Func.extract_keywords_with_llm fenvEmptyResults.chatKw "재고").2).length)],
          status := 200, mimetype := some "application/json" } :=
  ⟨(claim10_http_interface_contract fenvEmptyResults "e" [("other", "x")] "재고").2.1 rfl,
   (claim10_http_interface_contract fenvEmptyResults "e" [("request_text", "재고")] "재고").2.2.2
     rfl (by decide)⟩

/-- C2 (amended). The empty-context short-circuit holds only in the
text-question pipeline of the Streamlit app: there, when all three searchers
return empty lists, the answer is the fixed no-context message whatever the
generation oracle would reply (so the completion endpoint is not consulted).
In the file-analysis pipeline and in the HTTP function variant, the
generation/analysis completion call is still made, with an empty context
bundle, and its output is returned. -/
theorem claim2_amended_empty_context_short_circuit :
    (∀ (env : App.Env) (g : ChatReq → Except String String) (u : String),
      App.search_rules_for_context env u (App.text_query env u) = [] →
      App.search_dictionary_for_terms env u (App.text_query env u) = [] →
      App.search_qa_for_context env u (App.text_query env u) = [] →
        (App.appRun { env with chatGen := g } u none).map (fun r => r.answer)
          = .ok App.no_context_message)
    ∧ (∀ (env : App.Env) (u code : String) (f : App.UploadedFile),
        f.content = .ok code →
        App.search_rules_for_context env (App.analysis_request_text f.name)
          (App.text_query env (App.analysis_request_text f.name)) = [] →
        App.search_dictionary_for_terms env (App.analysis_request_text f.name)
          (App.text_query env (App.analysis_request_text f.name)) = [] →
        App.search_qa_for_context env (App.analysis_request_text f.name)
          (App.text_query env (App.analysis_request_text f.name)) = [] →
          (App.appRun env u (some f)).map (fun r => r.answer)
            = .ok (App.analyze_code_with_llm env.chatGen f.name code []))
    ∧ (∀ (fenv : Func.FEnv) (t : String), t ≠ "" →
        Func.search_rules_for_context fenv.svcRules
          (Func.extract_keywords_with_llm fenv.chatKw t).2 = [] →
        Func.search_dictionary_for_terms fenv.dictionary
          (Func.extract_keywords_with_llm fenv.chatKw t).1 = [] →
        Func.search_qa_for_context fenv.svcQA
          (Func.extract_keywords_with_llm fenv.chatKw t).2 = [] →
          Func.main fenv (.ok [("request_text", t)]) =
            { body := Func.jsonDump
                [("final_answer",
                  Func.JVal.str (generate_response_with_llm fenv.chatGen t [])),
                 ("search_query_used",
                  Func.JVal.str (Func.extract_keywords_with_llm fenv.chatKw t).2),
                 ("retrieved_context_count", Func.JVal.num 0)],
              status := 200, mimetype := some "application/json" }) := by
  refine ⟨?_, ?_, ?_⟩
  · intro env g u hR hD hQ
    have hR' : App.search_rules_for_context { env with chatGen := g } u
        (App.text_query { env with chatGen := g } u) = [] := hR
    have hD' : App.search_dictionary_for_terms { env with chatGen := g } u
        (App.text_query { env with chatGen := g } u) = [] := hD
    have hQ' : App.search_qa_for_context { env with chatGen := g } u
        (App.text_query { env with chatGen := g } u) = [] := hQ
    simp [App.appRun, App.text_query, Except.map] at hR' hD' hQ' ⊢
    simp [hR', hD', hQ']
  · intro env u code f hc hR hD hQ
    simp only [App.text_query] at hR hD hQ
    simp [App.appRun, hc, Except.map, hR, hD, hQ]
  · intro fenv t ht hR hD hQ
    have hl : List.lookup "request_text" [("request_text", t)] = some t := by simp
    simp [Func.main, ht, hR, hD, hQ]

/-- Counterexample to C2 as stated: a file-analysis request on which all
three searchers return empty lists, yet the answer is the generation
oracle's output ("MODEL-OUTPUT"), not the fixed no-context message — the
completion endpoint was consulted. -/
theorem claim2_counterexample :
    App.search_rules_for_context envAnalyzerOnly (App.analysis_request_text fileA.name)
      (App.text_query envAnalyzerOnly (App.analysis_request_text fileA.name)) = []
    ∧ App.search_dictionary_for_terms envAnalyzerOnly (App.analysis_request_text fileA.name)
        (App.text_query envAnalyzerOnly (App.analysis_request_text fileA.name)) = []
    ∧ App.search_qa_for_context envAnalyzerOnly (App.analysis_request_text fileA.name)
        (App.text_query envAnalyzerOnly (App.analysis_request_text fileA.name)) = []
    ∧ (App.appRun envAnalyzerOnly "" (some fileA)).map (fun r => r.answer)
        = .ok "MODEL-OUTPUT"
    ∧ "MODEL-OUTPUT" ≠ App.no_context_message :=
  ⟨rfl, rfl, rfl, rfl, by decide⟩

/-- Witness for C2 (amended): the text-question part and the function-variant
part at concrete all-empty environments. -/
theorem claim2_witness :
    (App.appRun { envEmptyResults with chatGen := fun _ => .ok "UNUSED" } "재고" none).map
        (fun r => r.answer) = .ok App.no_context_message
    ∧ Func.main fenvEmptyResults (.ok [("request_text", "재고")]) =
        { body := Func.jsonDump
            [("final_answer",
              Func.JVal.str (generate_response_with_llm fenvEmptyResults.chatGen "재고" [])),
             ("search_query_used",
              Func.JVal.str (Func.extract_keywords_with_llm fenvEmptyResults.chatKw "재고").2),
             ("retrieved_context_count", Func.JVal.num 0)],
          status := 200, mimetype := some "application/json" } :=
  ⟨claim2_amended_empty_context_short_circuit.1 envEmptyResults (fun _ => .ok "UNUSED") "재고"
     rfl rfl rfl,
   claim2_amended_empty_context_short_circuit.2.2 fenvEmptyResults "재고" (by decide)
     rfl rfl rfl⟩

/-- C5. History is append-only and untouched on failure: a batch of
successfully completing requests starting from the empty history yields
exactly their records in submission order, and a request that ends in an
orchestrator-level error appends nothing. -/
theorem claim5_history_append_only :
    (∀ (rs : List App.Request) (f : App.Request → App.ResultRecord),
      (∀ r ∈ rs, App.appRun r.env r.text r.file = .ok (f r)) →
        App.runHistory [] rs = rs.map f)
    ∧ (∀ (h : List App.ResultRecord) (r : App.Request) (e : String),
        App.appRun r.env r.text r.file = .error e → App.histStep h r = h) := by
  constructor
  · intro rs f hall
    simpa using runHistory_ok_append rs f [] hall
  · intro h r e he
    simp [App.histStep, he]

/-- Witness for C5: two successful requests append their two records in
order; a request whose file cannot be decoded appends nothing. -/
theorem claim5_witness :
    App.runHistory [] [reqA, reqA] = [recOfRun reqA, recOfRun reqA]
    ∧ App.histStep [] reqBad = [] :=
  ⟨claim5_history_append_only.1 [reqA, reqA] recOfRun
     (by
       intro r hr
       simp only [List.mem_cons, List.not_mem_nil, or_false] at hr
       rcases hr with h | h <;> (subst h; rfl)),
   claim5_history_append_only.2 [] reqBad "UnicodeDecodeError" rfl⟩

/-- C8. File-analysis retrieval query source: with an uploaded file present
the run is entirely independent of the user's free text, the mode recorded
is file-analysis, and the lexical query and Rules context are derived from
the synthetic analysis-intent string built from the file's name and
extension; without a file the recorded mode is text-question. -/
theorem claim8_file_mode_query_source :
    (∀ (env : App.Env) (t₁ t₂ : String) (f : App.UploadedFile),
      App.appRun env t₁ (some f) = App.appRun env t₂ (some f))
    ∧ (∀ (env : App.Env) (t : String) (f : App.UploadedFile) (code : String),
        f.content = .ok code →
          (App.appRun env t (some f)).map (fun r => r.analysisType)
            = .ok "코드 명명 규칙 분석 (3개 인덱스 활용)"
          ∧ (App.appRun env t (some f)).map (fun r => r.searchQuery)
            = .ok (App.text_query env (App.analysis_request_text f.name))
          ∧ (App.appRun env t (some f)).map (fun r => r.rulesCtx)
            = .ok (ctxJoin
                (App.search_rules_for_context env (App.analysis_request_text f.name)
                  (App.text_query env (App.analysis_request_text f.name)))
                "규칙 Context 검색 결과 없음")
          ∧ (App.appRun env t (some f)).map (fun r => r.question)
            = .ok ("[파일 분석] " ++ f.name ++ " (" ++ App.fileExt f.name ++ ")"))
    ∧ (∀ (env : App.Env) (t : String),
        (App.appRun env t none).map (fun r => r.analysisType) = .ok "일반 질의 응답") := by
  refine ⟨?_, ?_, ?_⟩
  · intro env t₁ t₂ f; rfl
  · intro env t f code hc
    refine ⟨?_, ?_, ?_, ?_⟩ <;> simp [App.appRun, App.text_query, hc, Except.map]
  · intro env t
    simp [App.appRun, Except.map]

/-- Witness for C8: a concrete file-analysis run ignores the user text and
records the file-analysis mode. -/
theorem claim8_witness :
    App.appRun envRich "텍스트 A" (some fileA) = App.appRun envRich "텍스트 B" (some fileA)
    ∧ (App.appRun envRich "텍스트 A" (some fileA)).map (fun r => r.analysisType)
        = .ok "코드 명명 규칙 분석 (3개 인덱스 활용)" :=
  ⟨claim8_file_mode_query_source.1 envRich "텍스트 A" "텍스트 B" fileA,
   (claim8_file_mode_query_source.2.1 envRich "텍스트 A" fileA "int user_list = 5;" rfl).1⟩

theorem dictFold_exists_suffix (kw : List String) :
    ∀ (l : List (String × Func.DictEntry)) (acc : List String),
      ∃ suf, l.foldl (Func.dictStep kw) acc = acc ++ suf
        ∧ List.Sublist suf ((l.filter (fun p => Func.dict_match kw p.1)).map
            (fun p => Func.format_dict_entry p.1 p.2)) := by
  intro l
  induction l with
  | nil => intro acc; exact ⟨[], by simp, by simp⟩
  | cons p l ih =>
    intro acc
    cases hm : Func.dict_match kw p.1 with
    | false =>
      obtain ⟨suf, h1, h2⟩ := ih acc
      refine ⟨suf, ?_, ?_⟩
      · simpa [App.runHistory, List.foldl_cons, Func.dictStep, hm] using h1
      · simpa [hm] using h2
    | true =>
      by_cases hc : Func.format_dict_entry p.1 p.2 ∈ acc
      · obtain ⟨suf, h1, h2⟩ := ih acc
        refine ⟨suf, ?_, ?_⟩
        · simpa [List.foldl_cons, Func.dictStep, hm, hc] using h1
        · simp only [List.filter_cons, hm, if_pos, List.map_cons]
          exact h2.cons _
      · obtain ⟨suf, h1, h2⟩ := ih (acc ++ [Func.format_dict_entry p.1 p.2])
        refine ⟨Func.format_dict_entry p.1 p.2 :: suf, ?_, ?_⟩
        · have hstep : Func.dictStep kw acc p = acc ++ [Func.format_dict_entry p.1 p.2] := by
            simp [Func.dictStep, hm, hc]
          calc (p :: l).foldl (Func.dictStep kw) acc
              = l.foldl (Func.dictStep kw) (Func.dictStep kw acc p) := by
                simp [List.foldl_cons]
            _ = acc ++ [Func.format_dict_entry p.1 p.2] ++ suf := by rw [hstep, h1]
            _ = acc ++ (Func.format_dict_entry p.1 p.2 :: suf) := by simp
        · simp only [List.filter_cons, hm, if_pos, List.map_cons]
          exact h2.cons₂ _
  
theorem dictFold_nodup (kw : List String) :
    ∀ (l : List (String × Func.DictEntry)) (acc : List String),
      acc.Nodup → (l.foldl (Func.dictStep kw) acc).Nodup := by
  intro l
  induction l with
  | nil => intro acc h; simpa using h
  | cons p l ih =>
    intro acc h
    have hstep : (Func.dictStep kw acc p).Nodup := by
      unfold Func.dictStep
      cases hm : Func.dict_match kw p.1 with
      | false => simpa using h
      | true =>
        by_cases hc : Func.format_dict_entry p.1 p.2 ∈ acc
        · simpa [hc] using h
        · simp only [hc, if_neg, if_true, reduceIte]
          rw [List.nodup_append]
          exact ⟨h, List.nodup_singleton _, by
            intro x hx hx1
            simp only [List.mem_singleton] at hx1
            subst hx1
            exact hc hx⟩
    simpa [List.foldl_cons] using ih _ hstep

theorem mem_dictFold_of_mem (kw : List String) :
    ∀ (l : List (String × Func.DictEntry)) (acc : List String) (x : String),
      x ∈ acc → x ∈ l.foldl (Func.dictStep kw) acc := by
  intro l
  induction l with
  | nil => intro acc x hx; simpa using hx
  | cons p l ih =>
    intro acc x hx
    have hstep : x ∈ Func.dictStep kw acc p := by
      unfold Func.dictStep
      cases hm : Func.dict_match kw p.1 with
      | false => simpa using hx
      | true =>
        by_cases hc : Func.format_dict_entry p.1 p.2 ∈ acc
        · simpa [hc] using hx
        · simp only [hc, if_neg, if_true, reduceIte]
          exact List.mem_append_left _ hx
    simpa [List.foldl_cons] using ih _ x hstep

theorem matched_mem_dictFold (kw : List String) :
    ∀ (l : List (String × Func.DictEntry)) (acc : List String)
      (p : String × Func.DictEntry), p ∈ l → Func.dict_match kw p.1 = true →
        Func.format_dict_entry p.1 p.2 ∈ l.foldl (Func.dictStep kw) acc := by
  intro l
  induction l with
  | nil => intro acc p hp; cases hp
  | cons q l ih =>
    intro acc p hp hm
    rcases List.mem_cons.1 hp with h | h
    · subst h
      have hstep : Func.format_dict_entry p.1 p.2 ∈ Func.dictStep kw acc p := by
        unfold Func.dictStep
        rw [hm]
        by_cases hc : Func.format_dict_entry p.1 p.2 ∈ acc
        · simp [hc]
        · simp [hc]
      simpa [List.foldl_cons] using mem_dictFold_of_mem kw l _ _ hstep
    · simpa [List.foldl_cons] using ih _ p h hm

/-- C9. The HTTP variant's dictionary searcher is a pure scan of the locally
loaded dictionary, not a search-service call: its output has no duplicate
snippet strings, is a subsequence of the formatted matched terms in
dictionary iteration order, and contains the snippet of every term whose
Korean form case-insensitively contains or is contained in some keyword.
The embedded function is total and takes no service oracle, so it never
raises and never reaches the search endpoint. -/
theorem claim9_local_dictionary_search :
    ∀ (dictionary : List (String × Func.DictEntry)) (keywords : List String),
      (Func.search_dictionary_for_terms dictionary keywords).Nodup
      ∧ List.Sublist (Func.search_dictionary_for_terms dictionary keywords)
          ((dictionary.filter (fun p => Func.dict_match keywords p.1)).map
              (fun p => Func.format_dict_entry p.1 p.2))
      ∧ ∀ p ∈ dictionary, Func.dict_match keywords p.1 = true →
          Func.format_dict_entry p.1 p.2
            ∈ Func.search_dictionary_for_terms dictionary keywords := by
  intro dictionary keywords
  refine ⟨dictFold_nodup keywords dictionary [] List.nodup_nil, ?_, ?_⟩
  · obtain ⟨suf, h1, h2⟩ := dictFold_exists_suffix keywords dictionary []
    have : Func.search_dictionary_for_terms dictionary keywords = suf := by
      simpa [Func.search_dictionary_for_terms] using h1
    rw [this]; exact h2
  · intro p hp hm
    exact matched_mem_dictFold keywords dictionary [] p hp hm

/-- Witness for C9 at the sample dictionary with keyword "재고": the scan
returns exactly the matching term's snippet, duplicate-free. -/
theorem claim9_witness :
    (Func.search_dictionary_for_terms Func.SAMPLE_DICTIONARY_ARRAY ["재고"]).Nodup
    ∧ Func.format_dict_entry "재고"
        { english := some "Stock/Inventory", abbreviation := some "INV",
          description := some "현재 판매 또는 배송 가능한 상태로 창고에 보관 중인 상품 수량." }
        ∈ Func.search_dictionary_for_terms Func.SAMPLE_DICTIONARY_ARRAY ["재고"] :=
  ⟨(claim9_local_dictionary_search Func.SAMPLE_DICTIONARY_ARRAY ["재고"]).1,
   (claim9_local_dictionary_search Func.SAMPLE_DICTIONARY_ARRAY ["재고"]).2.2
     ("재고", { english := some "Stock/Inventory", abbreviation := some "INV",
                description := some "현재 판매 또는 배송 가능한 상태로 창고에 보관 중인 상품 수량." })
     (by decide) (by decide)⟩

theorem mapM_eq_none_of_mem {α β : Type} (f : α → Option β) :
    ∀ (l : List α) (x : α), x ∈ l → f x = none → l.mapM f = none := by
  intro l
  induction l with
  | nil => intro x hx; cases hx
  | cons a l ih =>
    intro x hx hf
    rcases List.mem_cons.1 hx with h | h
    · subst h
      rw [List.mapM_cons, hf]
      rfl
    · rw [List.mapM_cons, ih x h hf]
      cases hfa : f a <;> rfl

theorem infix_right_of_head_notMem {c : Char} {ts l₂ : List Char} :
    ∀ l₁ : List Char, (c :: ts) <:+: l₁ ++ l₂ → c ∉ l₁ → (c :: ts) <:+: l₂ := by
  intro l₁
  induction l₁ with
  | nil => intro h _; simpa using h
  | cons a l ih =>
    intro h hc
    rcases List.infix_cons_iff.1 h with hpre | hinf
    · obtain ⟨r, hr⟩ := hpre
      have hca : c = a := by
        have := congrArg (fun z => z.head?) hr
        simpa using this
      exact absurd (by simp [hca]) hc
    · exact ih hinf (fun hm => hc (List.mem_cons_of_mem a hm))

set_option maxRecDepth 4000 in
/-- Counterexample to C6 as stated: a Rules hit with a present `rule_en` and
a missing example list formats to a snippet that contains no "N/A"
placeholder anywhere (the missing example renders as "예시 없음") and does
not embed the schema field `rule_en` at all. -/
theorem claim6_counterexample :
    ruleHitNoExample.example_ = none
    ∧ ruleHitNoExample.rule_en = some "RULEEN"
    ∧ ¬ strContains (App.format_rules_hit ruleHitNoExample) "N/A"
    ∧ ¬ strContains (App.format_rules_hit ruleHitNoExample) "RULEEN"
    ∧ strContains (App.format_rules_hit ruleHitNoExample) "예시 없음" :=
  ⟨rfl, rfl, by decide, by decide, by decide⟩

set_option maxRecDepth 8000 in
/-- C6 (amended). Snippet field completeness as the code implements it: in
the Streamlit app every Dictionary and Q&A snippet embeds its source tag,
its relevance score rendered with exactly two decimals, and each schema
field with "N/A" substituted when missing; Rules snippets do the same for
category, type and rule_kr, but render a missing or empty example list as
the placeholder "예시 없음" (not "N/A") and do not render the projected
rule_en at all.  In the HTTP function variant, the local-dictionary snippets
carry "N/A" placeholders but no score marker, and the Rules and Q&A
formatters have no placeholders: a hit missing any used field formats to
nothing, and one such hit empties that collection's snippet list. -/
theorem claim6_amended_snippet_field_completeness :
    (∀ h : DictHit,
      strContains (App.format_dictionary_hit h)
        ("[Context: 용어사전(Score:" ++ fmt2 (h.score.getD 0) ++ ")]")
      ∧ strContains (App.format_dictionary_hit h) ("**한국어**: " ++ h.korean.getD "N/A")
      ∧ strContains (App.format_dictionary_hit h) ("**영문**: " ++ h.english.getD "N/A")
      ∧ strContains (App.format_dictionary_hit h) ("**약어**: " ++ h.abbreviation.getD "N/A")
      ∧ strContains (App.format_dictionary_hit h) ("**설명**: " ++ h.description.getD "N/A"))
    ∧ (∀ h : QAHit,
        strContains (App.format_qa_hit h)
          ("[Context: QA-" ++ h.category.getD "N/A" ++ " (Score:"
            ++ fmt2 (h.score.getD 0) ++ ")]")
        ∧ strContains (App.format_qa_hit h) ("**질문**: " ++ h.question.getD "N/A")
        ∧ strContains (App.format_qa_hit h) ("**답변**: " ++ h.answer.getD "N/A"))
    ∧ (∀ h : RuleHit,
        strContains (App.format_rules_hit h)
          ("[Context: " ++ h.category.getD "N/A" ++ " " ++ h.type_.getD "N/A"
            ++ " Rule (Score:" ++ fmt2 (h.score.getD 0) ++ ")]")
        ∧ strContains (App.format_rules_hit h) ("**규칙**: " ++ h.rule_kr.getD "N/A")
        ∧ (h.example_.getD [] = [] →
            strContains (App.format_rules_hit h) ("**예시**: " ++ "예시 없음"))
        ∧ (∀ l, h.example_ = some l → l ≠ [] →
            strContains (App.format_rules_hit h)
              ("**예시**: " ++ String.intercalate ", " l)))
    ∧ (∀ n : Nat, fmt2 n = toString (n / 100) ++ "." ++ fracPart n ∧ (fracPart n).length = 2)
    ∧ (∀ h : RuleHit,
        h.category = none ∨ h.type_ = none ∨ h.rule_kr = none ∨ h.example_ = none →
          Func.format_rules_hit h = none)
    ∧ (∀ h : QAHit,
        h.category = none ∨ h.question = none ∨ h.answer = none →
          Func.format_qa_hit h = none)
    ∧ (∀ (svc : SearchReq → Except String (List RuleHit)) (q : String)
          (results : List RuleHit) (h : RuleHit),
        svc (Func.rules_search_request q) = .ok results → h ∈ results →
        Func.format_rules_hit h = none →
          Func.search_rules_for_context svc q = [])
    ∧ (∀ (svc : SearchReq → Except String (List QAHit)) (q : String)
          (results : List QAHit) (h : QAHit),
        svc (Func.qa_search_request q) = .ok results → h ∈ results →
        Func.format_qa_hit h = none →
          Func.search_qa_for_context svc q = [])
    ∧ Func.search_rules_for_context (fun _ => .ok [ruleHitNoCategory]) "질의" = []
    ∧ (∀ (k : String) (d : Func.DictEntry),
        ¬ strContains (k ++ " " ++ "**영문**: " ++ d.english.getD "N/A" ++ " " ++ "**약어**: "
            ++ d.abbreviation.getD "N/A" ++ " " ++ "**설명**: " ++ d.description.getD "N/A")
          "(Score:" →
          ¬ strContains (Func.format_dict_entry k d) "(Score:")
    ∧ (∀ p ∈ Func.SAMPLE_DICTIONARY_ARRAY,
        ¬ strContains (Func.format_dict_entry p.1 p.2) "(Score:")
    ∧ (∀ (k : String) (d : Func.DictEntry),
        strContains (Func.format_dict_entry k d) ("**한국어**: " ++ k)
        ∧ strContains (Func.format_dict_entry k d) ("**영문**: " ++ d.english.getD "N/A")
        ∧ strContains (Func.format_dict_entry k d) ("**약어**: " ++ d.abbreviation.getD "N/A")
        ∧ strContains (Func.format_dict_entry k d) ("**설명**: " ++ d.description.getD "N/A")) := by
  refine ⟨?_, ?_, ?_, ?_, ?_, ?_, ?_, ?_, ?_, ?_, ?_, ?_⟩
  · intro h
    refine ⟨?_, ?_, ?_, ?_, ?_⟩
    · exact strContains_of_parts _ "" _
        (" " ++ "**한국어**: " ++ h.korean.getD "N/A" ++ " " ++ "**영문**: "
          ++ h.english.getD "N/A" ++ " " ++ "**약어**: " ++ h.abbreviation.getD "N/A"
          ++ " " ++ "**설명**: " ++ h.description.getD "N/A")
        (by simp [App.format_dictionary_hit, String.data_append, List.append_assoc])
    · exact strContains_of_parts _
        ("[Context: 용어사전(Score:" ++ fmt2 (h.score.getD 0) ++ ")]" ++ " ") _
        (" " ++ "**영문**: " ++ h.english.getD "N/A" ++ " " ++ "**약어**: "
          ++ h.abbreviation.getD "N/A" ++ " " ++ "**설명**: " ++ h.description.getD "N/A")
        (by simp [App.format_dictionary_hit, String.data_append, List.append_assoc])
    · exact strContains_of_parts _
        ("[Context: 용어사전(Score:" ++ fmt2 (h.score.getD 0) ++ ")]" ++ " "
          ++ "**한국어**: " ++ h.korean.getD "N/A" ++ " ") _
        (" " ++ "**약어**: " ++ h.abbreviation.getD "N/A" ++ " " ++ "**설명**: "
          ++ h.description.getD "N/A")
        (by simp [App.format_dictionary_hit, String.data_append, List.append_assoc])
    · exact strContains_of_parts _
        ("[Context: 용어사전(Score:" ++ fmt2 (h.score.getD 0) ++ ")]" ++ " "
          ++ "**한국어**: " ++ h.korean.getD "N/A" ++ " " ++ "**영문**: "
          ++ h.english.getD "N/A" ++ " ") _
        (" " ++ "**설명**: " ++ h.description.getD "N/A")
        (by simp [App.format_dictionary_hit, String.data_append, List.append_assoc])
    · exact strContains_of_parts _
        ("[Context: 용어사전(Score:" ++ fmt2 (h.score.getD 0) ++ ")]" ++ " "
          ++ "**한국어**: " ++ h.korean.getD "N/A" ++ " " ++ "**영문**: "
          ++ h.english.getD "N/A" ++ " " ++ "**약어**: " ++ h.abbreviation.getD "N/A"
          ++ " ") _ ""
        (by simp [App.format_dictionary_hit, String.data_append, List.append_assoc])
  · intro h
    refine ⟨?_, ?_, ?_⟩
    · exact strContains_of_parts _ "" _
        (" " ++ "**질문**: " ++ h.question.getD "N/A" ++ " " ++ "**답변**: "
          ++ h.answer.getD "N/A")
        (by simp [App.format_qa_hit, String.data_append, List.append_assoc])
    · exact strContains_of_parts _
        ("[Context: QA-" ++ h.category.getD "N/A" ++ " (Score:"
          ++ fmt2 (h.score.getD 0) ++ ")]" ++ " ") _
        (" " ++ "**답변**: " ++ h.answer.getD "N/A")
        (by simp [App.format_qa_hit, String.data_append, List.append_assoc])
    · exact strContains_of_parts _
        ("[Context: QA-" ++ h.category.getD "N/A" ++ " (Score:"
          ++ fmt2 (h.score.getD 0) ++ ")]" ++ " " ++ "**질문**: "
          ++ h.question.getD "N/A" ++ " ") _ ""
        (by simp [App.format_qa_hit, String.data_append, List.append_assoc])
  · intro h
    refine ⟨?_, ?_, ?_, ?_⟩
    · exact strContains_of_parts _ "" _
        (" " ++ "**규칙**: " ++ h.rule_kr.getD "N/A" ++ " " ++ "**예시**: "
          ++ (if (h.example_.getD []).isEmpty then "예시 없음"
              else String.intercalate ", " (h.example_.getD [])))
        (by simp [App.format_rules_hit, String.data_append, List.append_assoc])
    · exact strContains_of_parts _
        ("[Context: " ++ h.category.getD "N/A" ++ " " ++ h.type_.getD "N/A"
          ++ " Rule (Score:" ++ fmt2 (h.score.getD 0) ++ ")]" ++ " ") _
        (" " ++ "**예시**: "
          ++ (if (h.example_.getD []).isEmpty then "예시 없음"
              else String.intercalate ", " (h.example_.getD [])))
        (by simp [App.format_rules_hit, String.data_append, List.append_assoc])
    · intro hex
      exact strContains_of_parts _
        ("[Context: " ++ h.category.getD "N/A" ++ " " ++ h.type_.getD "N/A"
          ++ " Rule (Score:" ++ fmt2 (h.score.getD 0) ++ ")]" ++ " "
          ++ "**규칙**: " ++ h.rule_kr.getD "N/A" ++ " ") _ ""
        (by simp [App.format_rules_hit, hex, String.data_append, List.append_assoc])
    · intro l hl hne
      have hie : l.isEmpty = false := by
        cases l with
        | nil => exact absurd rfl hne
        | cons a t => rfl
      exact strContains_of_parts _
        ("[Context: " ++ h.category.getD "N/A" ++ " " ++ h.type_.getD "N/A"
          ++ " Rule (Score:" ++ fmt2 (h.score.getD 0) ++ ")]" ++ " "
          ++ "**규칙**: " ++ h.rule_kr.getD "N/A" ++ " ") _ ""
        (by simp [App.format_rules_hit, hl, hie, String.data_append, List.append_assoc])
  · intro n
    exact ⟨rfl, rfl⟩
  · intro h hm
    cases hc : h.category <;> cases ht : h.type_ <;> cases hr : h.rule_kr <;>
      cases he : h.example_ <;> simp_all [Func.format_rules_hit]
  · intro h hm
    cases hc : h.category <;> cases hq : h.question <;> cases ha : h.answer <;>
      simp_all [Func.format_qa_hit]
  · intro svc q results h hsvc hmem hfmt
    have hm : List.mapM.loop Func.format_rules_hit results [] = none :=
      mapM_eq_none_of_mem Func.format_rules_hit results h hmem hfmt
    simp [Func.search_rules_for_context, hsvc, hm]
  · intro svc q results h hsvc hmem hfmt
    have hm : List.mapM.loop Func.format_qa_hit results [] = none :=
      mapM_eq_none_of_mem Func.format_qa_hit results h hmem hfmt
    simp [Func.search_qa_for_context, hsvc, hm]
  · rfl
  · intro k d hno hcontains
    apply hno
    have hdata : (Func.format_dict_entry k d).data
        = ("[Context: 용어사전] " ++ "**한국어**: ").data
          ++ (k ++ " " ++ "**영문**: " ++ d.english.getD "N/A" ++ " " ++ "**약어**: "
              ++ d.abbreviation.getD "N/A" ++ " "
              ++ "**설명**: " ++ d.description.getD "N/A").data := by
      simp [Func.format_dict_entry, String.data_append, List.append_assoc]
    have hcons : String.data "(Score:" = '(' :: String.data "Score:" := rfl
    have h1 : ('(' :: String.data "Score:")
        <:+: ("[Context: 용어사전] " ++ "**한국어**: ").data
          ++ (k ++ " " ++ "**영문**: " ++ d.english.getD "N/A" ++ " " ++ "**약어**: "
              ++ d.abbreviation.getD "N/A" ++ " "
              ++ "**설명**: " ++ d.description.getD "N/A").data := by
      rw [← hcons, ← hdata]
      exact hcontains
    have h2 := infix_right_of_head_notMem _ h1 (by decide)
    show String.data "(Score:" <:+: _
    rw [hcons]
    exact h2
  · intro p hp
    fin_cases hp <;> decide
  · intro k d
    refine ⟨?_, ?_, ?_, ?_⟩
    · exact strContains_of_parts _ "[Context: 용어사전] " _
        (" " ++ "**영문**: " ++ d.english.getD "N/A" ++ " " ++ "**약어**: "
          ++ d.abbreviation.getD "N/A" ++ " " ++ "**설명**: " ++ d.description.getD "N/A")
        (by simp [Func.format_dict_entry, String.data_append, List.append_assoc])
    · exact strContains_of_parts _
        ("[Context: 용어사전] " ++ "**한국어**: " ++ k ++ " ") _
        (" " ++ "**약어**: " ++ d.abbreviation.getD "N/A" ++ " " ++ "**설명**: "
          ++ d.description.getD "N/A")
        (by simp [Func.format_dict_entry, String.data_append, List.append_assoc])
    · exact strContains_of_parts _
        ("[Context: 용어사전] " ++ "**한국어**: " ++ k ++ " " ++ "**영문**: "
          ++ d.english.getD "N/A" ++ " ") _
        (" " ++ "**설명**: " ++ d.description.getD "N/A")
        (by simp [Func.format_dict_entry, String.data_append, List.append_assoc])
    · exact strContains_of_parts _
        ("[Context: 용어사전] " ++ "**한국어**: " ++ k ++ " " ++ "**영문**: "
          ++ d.english.getD "N/A" ++ " " ++ "**약어**: " ++ d.abbreviation.getD "N/A"
          ++ " ") _ ""
        (by simp [Func.format_dict_entry, String.data_append, List.append_assoc])

/-- Witness for C6 (amended), exercising the hypothesis-bearing conjuncts at
concrete hits: the Streamlit example placeholders, the function variant's
formats-to-nothing behavior for Rules and Q&A hits and the resulting empty
Q&A snippet list, and the absence of a score marker in a concrete
local-dictionary snippet.  Each part applies the amended theorem at a
concrete input and discharges its hypotheses there. -/
theorem claim6_witness :
    strContains (App.format_rules_hit ruleHitNoExample) ("**예시**: " ++ "예시 없음")
    ∧ strContains (App.format_rules_hit ruleHitA)
        ("**예시**: " ++ String.intercalate ", " ["userName", "itemCount"])
    ∧ Func.format_rules_hit ruleHitNoCategory = none
    ∧ Func.format_qa_hit qaHitNoQuestion = none
    ∧ Func.search_qa_for_context (fun _ => .ok [qaHitNoQuestion]) "질의" = []
    ∧ ¬ strContains
        (Func.format_dict_entry "재고"
          { english := some "Stock/Inventory", abbreviation := some "INV",
            description := some "창고에 보관 중인 상품 수량" })
        "(Score:" :=
  ⟨(claim6_amended_snippet_field_completeness.2.2.1 ruleHitNoExample).2.2.1 rfl,
   (claim6_amended_snippet_field_completeness.2.2.1 ruleHitA).2.2.2
     ["userName", "itemCount"] rfl (by decide),
   claim6_amended_snippet_field_completeness.2.2.2.2.1 ruleHitNoCategory (Or.inl rfl),
   claim6_amended_snippet_field_completeness.2.2.2.2.2.1 qaHitNoQuestion
     (Or.inr (Or.inl rfl)),
   claim6_amended_snippet_field_completeness.2.2.2.2.2.2.2.1
     (fun _ => .ok [qaHitNoQuestion]) "질의" [qaHitNoQuestion] qaHitNoQuestion
     rfl (by simp) rfl,
   claim6_amended_snippet_field_completeness.2.2.2.2.2.2.2.2.2.1 "재고"
     { english := some "Stock/Inventory", abbreviation := some "INV",
       description := some "창고에 보관 중인 상품 수량" }
     (by decide)⟩
